import Mathlib

/-!
Shallow embedding of the UIDAI hackathon enrollment pipeline
(`src/imbalance_metrics.py`, `src/preprocessing.py`, `src/ranking_engine.py`).

Numeric columns are embedded as rationals (the Python code works on pandas
numeric columns; all formulas are ratios, sums, clamps and comparisons of
decimal constants, which translate exactly to ℚ).
-/

namespace UIDAI

/-! ### Metrics calculator (`src/imbalance_metrics.py`, class ImbalanceMetrics) -/

/-- `ImbalanceMetrics.calculate_aer`: `age_18_greater / total`, 0 when `total == 0`. -/
def calculate_aer (age_0_5 age_5_17 age_18_greater : ℚ) : ℚ :=
  let total := age_0_5 + age_5_17 + age_18_greater
  if total = 0 then 0 else age_18_greater / total

/-- `ImbalanceMetrics.calculate_caes`: `age_0_5 / (age_18_greater + 1)`. -/
def calculate_caes (age_0_5 age_18_greater : ℚ) : ℚ :=
  age_0_5 / (age_18_greater + 1)

/-- `ImbalanceMetrics.calculate_aebi`: 0 when `total == 0`, else
`max(0, min(100, aer*100 + (1 - |age_5_17/total - 0.05| / 0.1)))`. -/
def calculate_aebi (age_0_5 age_5_17 age_18_greater : ℚ) : ℚ :=
  let total := age_0_5 + age_5_17 + age_18_greater
  if total = 0 then 0
  else
    let aer := calculate_aer age_0_5 age_5_17 age_18_greater
    let ratio_5_17 := age_5_17 / total
    let aebi := aer * 100 + (1 - |ratio_5_17 - 5/100| / (1/10))
    max 0 (min 100 aebi)

/-- `ImbalanceMetrics.classify_aer_grade`. -/
def classify_aer_grade (aer : ℚ) : String :=
  if aer ≥ 5/100 then "GREEN"
  else if aer ≥ 1/100 then "YELLOW"
  else "RED"

/-- `ImbalanceMetrics.classify_aebi_grade`. -/
def classify_aebi_grade (aebi : ℚ) : String :=
  if aebi ≥ 7 then "GREEN"
  else if aebi ≥ 3 then "YELLOW"
  else "RED"

/-! ### Theorems for the per-value metric claims -/

/-- C1: for non-negative counts, `calculate_aer` returns 0 on a zero total,
`c2 / (c0+c1+c2)` on a positive total, and always lies in `[0, 1]`. -/
theorem calculate_aer_spec (c0 c1 c2 : ℚ)
    (h0 : 0 ≤ c0) (h1 : 0 ≤ c1) (h2 : 0 ≤ c2) :
    (c0 + c1 + c2 = 0 → calculate_aer c0 c1 c2 = 0) ∧
    (0 < c0 + c1 + c2 → calculate_aer c0 c1 c2 = c2 / (c0 + c1 + c2)) ∧
    0 ≤ calculate_aer c0 c1 c2 ∧ calculate_aer c0 c1 c2 ≤ 1 := by
  unfold calculate_aer
  rcases eq_or_lt_of_le (by positivity : (0:ℚ) ≤ c0 + c1 + c2) with htot | htot
  · refine ⟨fun _ => by simp [← htot], fun hpos => absurd hpos (by simp [← htot]), ?_, ?_⟩
    · simp [← htot]
    · simp [← htot]
  · have hne : c0 + c1 + c2 ≠ 0 := ne_of_gt htot
    refine ⟨fun h => absurd h hne, fun _ => by simp [hne], ?_, ?_⟩
    · simp only [hne, if_false]
      positivity
    · simp only [hne, if_false]
      rw [div_le_one htot]
      nlinarith

/-- C1 witness at counts (1, 2, 3). -/
theorem calculate_aer_spec_witness :
    (0:ℚ) ≤ 1 ∧ (0:ℚ) ≤ 2 ∧ (0:ℚ) ≤ 3 ∧
    ((1 + 2 + 3 = (0:ℚ) → calculate_aer 1 2 3 = 0) ∧
     (0 < (1:ℚ) + 2 + 3 → calculate_aer 1 2 3 = 3 / (1 + 2 + 3)) ∧
     0 ≤ calculate_aer 1 2 3 ∧ calculate_aer 1 2 3 ≤ 1) :=
  ⟨by norm_num, by norm_num, by norm_num,
   calculate_aer_spec 1 2 3 (by norm_num) (by norm_num) (by norm_num)⟩

/-- C2: for non-negative counts, `calculate_aebi` returns 0 on a zero total,
otherwise the clamped composite `max 0 (min 100 (aer*100 + (1 - |c1/total - 0.05|/0.1)))`,
and the result is always in `[0, 100]`. -/
theorem calculate_aebi_spec (c0 c1 c2 : ℚ)
    (_h0 : 0 ≤ c0) (_h1 : 0 ≤ c1) (_h2 : 0 ≤ c2) :
    (c0 + c1 + c2 = 0 → calculate_aebi c0 c1 c2 = 0) ∧
    (c0 + c1 + c2 ≠ 0 →
      calculate_aebi c0 c1 c2 =
        max 0 (min 100 (calculate_aer c0 c1 c2 * 100 +
          (1 - |c1 / (c0 + c1 + c2) - 5/100| / (1/10))))) ∧
    0 ≤ calculate_aebi c0 c1 c2 ∧ calculate_aebi c0 c1 c2 ≤ 100 := by
  unfold calculate_aebi
  by_cases htot : c0 + c1 + c2 = 0
  · refine ⟨fun _ => by simp [htot], fun h => absurd htot h, ?_, ?_⟩
    · simp [htot]
    · simp [htot]
  · refine ⟨fun h => absurd h htot, fun _ => by simp [htot], ?_, ?_⟩
    · simp only [htot, if_false]
      exact le_max_left 0 _
    · simp only [htot, if_false]
      exact max_le (by norm_num) (min_le_left 100 _)

/-- C2 witness at counts (1, 2, 3). -/
theorem calculate_aebi_spec_witness :
    (0:ℚ) ≤ 1 ∧ (0:ℚ) ≤ 2 ∧ (0:ℚ) ≤ 3 ∧
    ((1 + 2 + 3 = (0:ℚ) → calculate_aebi 1 2 3 = 0) ∧
     ((1:ℚ) + 2 + 3 ≠ 0 →
       calculate_aebi 1 2 3 =
         max 0 (min 100 (calculate_aer 1 2 3 * 100 +
           (1 - |2 / (1 + 2 + 3) - 5/100| / (1/10))))) ∧
     0 ≤ calculate_aebi 1 2 3 ∧ calculate_aebi 1 2 3 ≤ 100) :=
  ⟨by norm_num, by norm_num, by norm_num,
   calculate_aebi_spec 1 2 3 (by norm_num) (by norm_num) (by norm_num)⟩

/-- C3: `classify_aer_grade` is total on non-negative values: the grade is
exactly one of GREEN/YELLOW/RED with GREEN ↔ `aer ≥ 0.05`,
YELLOW ↔ `0.01 ≤ aer < 0.05`, RED ↔ `aer < 0.01`; in particular the
boundary values 0.05 and 0.01 classify as GREEN and YELLOW. -/
theorem classify_aer_grade_spec (aer : ℚ) (_h : 0 ≤ aer) :
    (classify_aer_grade aer = "GREEN" ∨ classify_aer_grade aer = "YELLOW" ∨
      classify_aer_grade aer = "RED") ∧
    (classify_aer_grade aer = "GREEN" ↔ 5/100 ≤ aer) ∧
    (classify_aer_grade aer = "YELLOW" ↔ 1/100 ≤ aer ∧ aer < 5/100) ∧
    (classify_aer_grade aer = "RED" ↔ aer < 1/100) ∧
    classify_aer_grade (5/100) = "GREEN" ∧ classify_aer_grade (1/100) = "YELLOW" := by
  have hb1 : classify_aer_grade (5/100) = "GREEN" := by norm_num [classify_aer_grade]
  have hb2 : classify_aer_grade (1/100) = "YELLOW" := by norm_num [classify_aer_grade]
  by_cases h5 : 5/100 ≤ aer
  · have hg : classify_aer_grade aer = "GREEN" := by simp [classify_aer_grade, h5]
    refine ⟨Or.inl hg, ?_, ?_, ?_, hb1, hb2⟩
    · rw [hg]
      exact ⟨fun _ => h5, fun _ => rfl⟩
    · rw [hg]
      constructor
      · intro hc
        exact absurd hc (by decide)
      · rintro ⟨-, hlt⟩
        exact absurd h5 (not_le_of_lt hlt)
    · rw [hg]
      constructor
      · intro hc
        exact absurd hc (by decide)
      · intro hlt
        exact absurd h5 (not_le_of_lt (lt_trans hlt (by norm_num)))
  · by_cases h1 : 1/100 ≤ aer
    · have hy : classify_aer_grade aer = "YELLOW" := by
        unfold classify_aer_grade
        rw [if_neg h5, if_pos h1]
      refine ⟨Or.inr (Or.inl hy), ?_, ?_, ?_, hb1, hb2⟩
      · rw [hy]
        constructor
        · intro hc
          exact absurd hc (by decide)
        · intro hge
          exact absurd hge h5
      · rw [hy]
        exact ⟨fun _ => ⟨h1, lt_of_not_le h5⟩, fun _ => rfl⟩
      · rw [hy]
        constructor
        · intro hc
          exact absurd hc (by decide)
        · intro hlt
          exact absurd h1 (not_le_of_lt hlt)
    · have hr : classify_aer_grade aer = "RED" := by
        unfold classify_aer_grade
        rw [if_neg h5, if_neg h1]
      refine ⟨Or.inr (Or.inr hr), ?_, ?_, ?_, hb1, hb2⟩
      · rw [hr]
        constructor
        · intro hc
          exact absurd hc (by decide)
        · intro hge
          exact absurd hge h5
      · rw [hr]
        constructor
        · intro hc
          exact absurd hc (by decide)
        · rintro ⟨hge, -⟩
          exact absurd hge h1
      · rw [hr]
        exact ⟨fun _ => lt_of_not_le h1, fun _ => rfl⟩

/-- C3 witness at `aer = 0.05`. -/
theorem classify_aer_grade_spec_witness :
    (0:ℚ) ≤ 5/100 ∧
    ((classify_aer_grade (5/100) = "GREEN" ∨ classify_aer_grade (5/100) = "YELLOW" ∨
       classify_aer_grade (5/100) = "RED") ∧
     (classify_aer_grade (5/100) = "GREEN" ↔ 5/100 ≤ (5/100 : ℚ)) ∧
     (classify_aer_grade (5/100) = "YELLOW" ↔ 1/100 ≤ (5/100 : ℚ) ∧ (5/100 : ℚ) < 5/100) ∧
     (classify_aer_grade (5/100) = "RED" ↔ (5/100 : ℚ) < 1/100) ∧
     classify_aer_grade (5/100) = "GREEN" ∧ classify_aer_grade (1/100) = "YELLOW") :=
  ⟨by norm_num, classify_aer_grade_spec (5/100) (by norm_num)⟩

/-! ### Tabular machinery

Pandas `df.groupby(keys).agg(...)` partitions the rows by key value and
combines each group; the sums/first-values are what the `agg_dict`s of the
source request. Group order is abstract here (pandas emits groups in sorted
key order; none of the verified claims depend on the relative order of
distinct groups). `merge r g` combines the first row `r` of a group with
the remaining rows `g` of that group. -/

def groupByKey {α β κ : Type} [DecidableEq κ] (key : α → κ) (merge : α → List α → β)
    (l : List α) : List β :=
  ((l.map key).dedup).filterMap (fun k =>
    match l.filter (fun s => key s = k) with
    | [] => none
    | r :: g => some (merge r g))

theorem mem_groupByKey {α β κ : Type} [DecidableEq κ] {key : α → κ} {merge : α → List α → β}
    {l : List α} {b : β} :
    b ∈ groupByKey key merge l ↔
      ∃ k r g, l.filter (fun s => key s = k) = r :: g ∧ b = merge r g := by
  unfold groupByKey
  rw [List.mem_filterMap]
  constructor
  · rintro ⟨k, hk, hfk⟩
    rcases hfilter : l.filter (fun s => key s = k) with _ | ⟨r, g⟩
    · rw [hfilter] at hfk
      simp at hfk
    · rw [hfilter] at hfk
      simp only [Option.some.injEq] at hfk
      exact ⟨k, r, g, hfilter, hfk.symm⟩
  · rintro ⟨k, r, g, hfilter, rfl⟩
    have hr : r ∈ l.filter (fun s => key s = k) := by
      rw [hfilter]
      exact List.mem_cons_self r g
    rw [List.mem_filter] at hr
    refine ⟨k, ?_, ?_⟩
    · rw [List.mem_dedup]
      have hkey : key r = k := of_decide_eq_true hr.2
      exact hkey ▸ List.mem_map_of_mem key hr.1
    · rw [hfilter]

/-- Existence side of `groupByKey`: every input row's key is represented. -/
theorem groupByKey_surj {α β κ : Type} [DecidableEq κ] {key : α → κ} {merge : α → List α → β}
    {l : List α} {r0 : α} (h : r0 ∈ l) :
    ∃ r g, l.filter (fun s => key s = key r0) = r :: g ∧ merge r g ∈ groupByKey key merge l := by
  have hr0 : r0 ∈ l.filter (fun s => key s = key r0) := by
    rw [List.mem_filter]
    exact ⟨h, by simp⟩
  rcases hfilter : l.filter (fun s => key s = key r0) with _ | ⟨r, g⟩
  · rw [hfilter] at hr0
    cases hr0
  · exact ⟨r, g, rfl, mem_groupByKey.mpr ⟨key r0, r, g, hfilter, rfl⟩⟩

theorem sum_map_add {α : Type} (f g : α → ℚ) (l : List α) :
    (l.map fun a => f a + g a).sum = (l.map f).sum + (l.map g).sum := by
  induction l with
  | nil => simp
  | cons a t ih =>
    simp only [List.map_cons, List.sum_cons, ih]
    ring

theorem sum_map_filter_split {α : Type} (f : α → ℚ) (P Q : α → Prop)
    [DecidablePred P] [DecidablePred Q] (l : List α) :
    ((l.filter fun a => P a).map f).sum =
      ((l.filter fun a => P a ∧ Q a).map f).sum +
        ((l.filter fun a => P a ∧ ¬ Q a).map f).sum := by
  induction l with
  | nil => simp
  | cons a t ih =>
    by_cases hP : P a
    · by_cases hQ : Q a
      · simp [List.filter_cons, hP, hQ, ih]
        ring
      · simp [List.filter_cons, hP, hQ, ih]
        ring
    · simp [List.filter_cons, hP, ih]

/-! ### Preprocessing (`src/preprocessing.py`, class DataPreprocessor)

A raw record after steps 1-5 of `clean_data` (dates parsed, districts
standardized, PIN codes flagged, missing counts filled and clipped to ≥ 0):
the parsed `date` is the (year, month, day) triple, `pincode_valid` and
`state` stand for the non-key, non-enrollment columns that the duplicate
step aggregates with `"first"`. -/

structure RawRow where
  year : Nat
  month : Nat
  day : Nat
  district : String
  pincode : String
  pincode_valid : Bool
  state : String
  age_0_5 : ℚ
  age_5_17 : ℚ
  age_18_greater : ℚ
deriving DecidableEq

/-- The duplicate key of `_remove_duplicates`: `["date", "district", "pincode"]`. -/
def dupKey (r : RawRow) : (Nat × Nat × Nat) × String × String :=
  ((r.year, r.month, r.day), r.district, r.pincode)

/-- A duplicate group is combined by summing the enrollment columns and
keeping the first occurrence of every other column. -/
def mergeDuplicates (r : RawRow) (g : List RawRow) : RawRow :=
  { r with
    age_0_5 := r.age_0_5 + (g.map fun s => s.age_0_5).sum
    age_5_17 := r.age_5_17 + (g.map fun s => s.age_5_17).sum
    age_18_greater := r.age_18_greater + (g.map fun s => s.age_18_greater).sum }

/-- `DataPreprocessor._remove_duplicates`:
`df.groupby(["date", "district", "pincode"]).agg(sum / first)`. -/
def remove_duplicates (df : List RawRow) : List RawRow :=
  groupByKey dupKey mergeDuplicates df

/-- A cleaned row after step 7 (`_add_derived_columns`): the raw columns
plus the derived `total_enrollments`. -/
structure CleanRow extends RawRow where
  total_enrollments : ℚ
deriving DecidableEq

/-- `DataPreprocessor._add_derived_columns`:
`df["total_enrollments"] = df[["age_0_5", "age_5_17", "age_18_greater"]].sum(axis=1)`. -/
def add_derived_columns (df : List RawRow) : List CleanRow :=
  df.map fun r =>
    { toRawRow := r
      total_enrollments := r.age_0_5 + r.age_5_17 + r.age_18_greater }

/-- One row of the optional monthly aggregation output. -/
structure MonthlyRow where
  year : Nat
  month : Nat
  district : String
  pincode : String
  age_0_5 : ℚ
  age_5_17 : ℚ
  age_18_greater : ℚ
  total_enrollments : ℚ
deriving DecidableEq

/-- `DataPreprocessor.aggregate_monthly`: group by
`["year_month", "district", "pincode"]` and sum the three age columns and
`total_enrollments`. -/
def aggregate_monthly (df : List CleanRow) : List MonthlyRow :=
  groupByKey (fun r => ((r.year, r.month), r.district, r.pincode))
    (fun r g =>
      { year := r.year
        month := r.month
        district := r.district
        pincode := r.pincode
        age_0_5 := r.age_0_5 + (g.map fun s => s.age_0_5).sum
        age_5_17 := r.age_5_17 + (g.map fun s => s.age_5_17).sum
        age_18_greater := r.age_18_greater + (g.map fun s => s.age_18_greater).sum
        total_enrollments := r.total_enrollments + (g.map fun s => s.total_enrollments).sum })
    df

/-! ### Ranking engine (`src/ranking_engine.py`, class RankingEngine)

Input rows carry the columns the engine reads: `district`, `pincode`, the
three age counts and `total_enrollments`. -/

structure MRow where
  district : String
  pincode : String
  age_0_5 : ℚ
  age_5_17 : ℚ
  age_18_greater : ℚ
  total_enrollments : ℚ
deriving DecidableEq

/-- District aggregate (the four summed columns of `agg_dict`). -/
structure DRow where
  district : String
  age_0_5 : ℚ
  age_5_17 : ℚ
  age_18_greater : ℚ
  total_enrollments : ℚ
deriving DecidableEq

def mergeDistrict (r : MRow) (g : List MRow) : DRow :=
  { district := r.district
    age_0_5 := r.age_0_5 + (g.map fun s => s.age_0_5).sum
    age_5_17 := r.age_5_17 + (g.map fun s => s.age_5_17).sum
    age_18_greater := r.age_18_greater + (g.map fun s => s.age_18_greater).sum
    total_enrollments := r.total_enrollments + (g.map fun s => s.total_enrollments).sum }

/-- `df.groupby("district").agg(agg_dict)` of `rank_districts`. -/
def district_data (df : List MRow) : List DRow :=
  groupByKey (fun r => r.district) mergeDistrict df

/-- PIN-code aggregate (grouped by `["district", "pincode"]`). -/
structure PRow where
  district : String
  pincode : String
  age_0_5 : ℚ
  age_5_17 : ℚ
  age_18_greater : ℚ
  total_enrollments : ℚ
deriving DecidableEq

def mergePincode (r : MRow) (g : List MRow) : PRow :=
  { district := r.district
    pincode := r.pincode
    age_0_5 := r.age_0_5 + (g.map fun s => s.age_0_5).sum
    age_5_17 := r.age_5_17 + (g.map fun s => s.age_5_17).sum
    age_18_greater := r.age_18_greater + (g.map fun s => s.age_18_greater).sum
    total_enrollments := r.total_enrollments + (g.map fun s => s.total_enrollments).sum }

/-- `df.groupby(["district", "pincode"]).agg(agg_dict)` used by
`rank_pincodes` and `identify_priority_zones`. -/
def pincode_data (df : List MRow) : List PRow :=
  groupByKey (fun r => (r.district, r.pincode)) mergePincode df

/-- The share-of-total percentage columns (`fillna(0)` turns the 0/0 case
into 0). -/
def pct_share (c total : ℚ) : ℚ :=
  if total = 0 then 0 else c / total * 100

/-- A district aggregate after `ImbalanceMetrics.add_metrics_to_dataframe`. -/
structure DMRow where
  district : String
  age_0_5 : ℚ
  age_5_17 : ℚ
  age_18_greater : ℚ
  total_enrollments : ℚ
  aer : ℚ
  caes : ℚ
  aebi : ℚ
  aer_pct : ℚ
  child_pct : ℚ
  youth_pct : ℚ
  adult_pct : ℚ
  aer_grade : String
  aebi_grade : String
deriving DecidableEq

/-- Row-wise effect of `add_metrics_to_dataframe` on a district aggregate. -/
def add_metrics_district (a : DRow) : DMRow :=
  { district := a.district
    age_0_5 := a.age_0_5
    age_5_17 := a.age_5_17
    age_18_greater := a.age_18_greater
    total_enrollments := a.total_enrollments
    aer := calculate_aer a.age_0_5 a.age_5_17 a.age_18_greater
    caes := calculate_caes a.age_0_5 a.age_18_greater
    aebi := calculate_aebi a.age_0_5 a.age_5_17 a.age_18_greater
    aer_pct := calculate_aer a.age_0_5 a.age_5_17 a.age_18_greater * 100
    child_pct := pct_share a.age_0_5 a.total_enrollments
    youth_pct := pct_share a.age_5_17 a.total_enrollments
    adult_pct := pct_share a.age_18_greater a.total_enrollments
    aer_grade := classify_aer_grade (calculate_aer a.age_0_5 a.age_5_17 a.age_18_greater)
    aebi_grade := classify_aebi_grade (calculate_aebi a.age_0_5 a.age_5_17 a.age_18_greater) }

/-- A metrics-annotated PIN-code aggregate. -/
structure PMRow where
  district : String
  pincode : String
  age_0_5 : ℚ
  age_5_17 : ℚ
  age_18_greater : ℚ
  total_enrollments : ℚ
  aer : ℚ
  caes : ℚ
  aebi : ℚ
  aer_pct : ℚ
  child_pct : ℚ
  youth_pct : ℚ
  adult_pct : ℚ
  aer_grade : String
  aebi_grade : String
deriving DecidableEq

/-- Row-wise effect of `add_metrics_to_dataframe` on a PIN-code aggregate. -/
def add_metrics_pincode (a : PRow) : PMRow :=
  { district := a.district
    pincode := a.pincode
    age_0_5 := a.age_0_5
    age_5_17 := a.age_5_17
    age_18_greater := a.age_18_greater
    total_enrollments := a.total_enrollments
    aer := calculate_aer a.age_0_5 a.age_5_17 a.age_18_greater
    caes := calculate_caes a.age_0_5 a.age_18_greater
    aebi := calculate_aebi a.age_0_5 a.age_5_17 a.age_18_greater
    aer_pct := calculate_aer a.age_0_5 a.age_5_17 a.age_18_greater * 100
    child_pct := pct_share a.age_0_5 a.total_enrollments
    youth_pct := pct_share a.age_5_17 a.total_enrollments
    adult_pct := pct_share a.age_18_greater a.total_enrollments
    aer_grade := classify_aer_grade (calculate_aer a.age_0_5 a.age_5_17 a.age_18_greater)
    aebi_grade := classify_aebi_grade (calculate_aebi a.age_0_5 a.age_5_17 a.age_18_greater) }

/-- `rank_districts`' priority bucketing:
`'HIGH' if rank <= N*0.3 else 'MEDIUM' if rank <= N*0.7 else 'LOW'`. -/
def district_priority (rank n : Nat) : String :=
  if (rank : ℚ) ≤ (n : ℚ) * (3/10) then "HIGH"
  else if (rank : ℚ) ≤ (n : ℚ) * (7/10) then "MEDIUM"
  else "LOW"

/-- A district row of the final ranking table. -/
structure RankedDRow extends DMRow where
  rank : Nat
  priority : String
deriving DecidableEq

/-- `district_data["rank"] = range(1, len+1)` and the `priority` column. -/
def assignDistrictRanks (i n : Nat) : List DMRow → List RankedDRow
  | [] => []
  | a :: rest =>
    { toDMRow := a, rank := i, priority := district_priority i n } ::
      assignDistrictRanks (i + 1) n rest

/-- `RankingEngine.rank_districts`: aggregate by district, recompute the
metrics on the aggregate, sort ascending by the chosen metric, then attach
`rank` 1..N and `priority`. -/
def rank_districts (df : List MRow) (metric : DMRow → ℚ) : List RankedDRow :=
  assignDistrictRanks 1 (district_data df).length
    (((district_data df).map add_metrics_district).mergeSort
      (fun a b => metric a ≤ metric b))

/-- `rank_districts` at its default metric column `'aer'`. -/
def district_rankings_default (df : List MRow) : List RankedDRow :=
  rank_districts df (fun a => a.aer)

/-- `rank_pincodes`' risk ladder:
`'HIGH' if aer < 0.005 else 'MEDIUM' if aer < 0.02 else 'LOW'`. -/
def risk_level_of (aer : ℚ) : String :=
  if aer < 5/1000 then "HIGH"
  else if aer < 2/100 then "MEDIUM"
  else "LOW"

/-- `RankingEngine._generate_recommendation`. -/
def generate_recommendation (row : PMRow) : String :=
  if row.age_18_greater = 0 then "Targeted adult drive needed"
  else if row.aer < 1/100 then "Adult outreach required"
  else if row.aer < 3/100 then "Moderate improvement needed"
  else if row.aer < 5/100 then "Slight optimization possible"
  else "Best-practice center"

/-- A PIN-code row of the final ranking table. -/
structure RankedPRow extends PMRow where
  rank : Nat
  risk_level : String
  recommendation : String
deriving DecidableEq

def assignPincodeRanks (i : Nat) : List PMRow → List RankedPRow
  | [] => []
  | a :: rest =>
    { toPMRow := a, rank := i, risk_level := risk_level_of a.aer,
      recommendation := generate_recommendation a } ::
      assignPincodeRanks (i + 1) rest

/-- PIN-code aggregates that pass the minimum-enrollment floor:
`pincode_data[pincode_data["total_enrollments"] >= min_enrollments]`,
then annotated with the metrics. -/
def annotated_pincode_data (df : List MRow) (min_enrollments : ℚ) : List PMRow :=
  ((pincode_data df).filter fun a => min_enrollments ≤ a.total_enrollments).map
    add_metrics_pincode

/-- `if top_n: pincode_data = pincode_data.head(top_n)` (Python treats
`top_n = 0` and `top_n = None` as falsy). -/
def apply_top_n (top_n : Option Nat) (l : List RankedPRow) : List RankedPRow :=
  match top_n with
  | none => l
  | some k => if k = 0 then l else l.take k

/-- `RankingEngine.rank_pincodes`: aggregate by (district, pincode), drop
aggregates under the floor, recompute metrics, sort ascending by the chosen
metric, attach `rank`, `risk_level` and `recommendation`. -/
def rank_pincodes (df : List MRow) (metric : PMRow → ℚ) (min_enrollments : ℚ)
    (top_n : Option Nat) : List RankedPRow :=
  apply_top_n top_n
    (assignPincodeRanks 1
      ((annotated_pincode_data df min_enrollments).mergeSort
        (fun a b => metric a ≤ metric b)))

/-- `identify_priority_zones`' tier ladder. -/
def tier_of (aer : ℚ) : String :=
  if aer < 1/1000 then "TIER 1 - URGENT"
  else if aer < 5/1000 then "TIER 2 - MODERATE"
  else "TIER 3 - LOW PRIORITY"

/-- A priority-zone row. -/
structure ZoneRow extends PMRow where
  tier : String
deriving DecidableEq

/-- `RankingEngine.identify_priority_zones`: aggregate by (district,
pincode), keep aggregates over the enrollment floor, recompute metrics,
keep rows with `aer < aer_threshold`, sort ascending by `aer`, attach the
`tier` column. -/
def identify_priority_zones (df : List MRow) (aer_threshold min_enrollments : ℚ) :
    List ZoneRow :=
  (((annotated_pincode_data df min_enrollments).filter
        fun a => a.aer < aer_threshold).mergeSort
      (fun a b => a.aer ≤ b.aer)).map
    (fun a => { toPMRow := a, tier := tier_of a.aer })

/-! ### The schema check of `ImbalanceMetrics.add_metrics_to_dataframe`

The loose input table is modelled with its explicit column-name list and
its rows of raw counts; the metric computation itself is the row-wise
annotation with the formulas above. -/

structure Frame where
  cols : List String
  rows : List (ℚ × ℚ × ℚ)

def required_cols : List String := ["age_0_5", "age_5_17", "age_18_greater"]

/-- `[col for col in required_cols if col not in df.columns]`. -/
def missing_required_cols (cols : List String) : List String :=
  required_cols.filter fun c => ¬ c ∈ cols

/-- One fully annotated row (the metric columns added by
`add_metrics_to_dataframe`; `total_enrollments` is derived when absent). -/
structure MetricsRow where
  age_0_5 : ℚ
  age_5_17 : ℚ
  age_18_greater : ℚ
  total_enrollments : ℚ
  aer : ℚ
  caes : ℚ
  aebi : ℚ
  aer_pct : ℚ
  child_pct : ℚ
  youth_pct : ℚ
  adult_pct : ℚ
  aer_grade : String
  aebi_grade : String
deriving DecidableEq

def annotate_counts (c : ℚ × ℚ × ℚ) : MetricsRow :=
  { age_0_5 := c.1
    age_5_17 := c.2.1
    age_18_greater := c.2.2
    total_enrollments := c.1 + c.2.1 + c.2.2
    aer := calculate_aer c.1 c.2.1 c.2.2
    caes := calculate_caes c.1 c.2.2
    aebi := calculate_aebi c.1 c.2.1 c.2.2
    aer_pct := calculate_aer c.1 c.2.1 c.2.2 * 100
    child_pct := pct_share c.1 (c.1 + c.2.1 + c.2.2)
    youth_pct := pct_share c.2.1 (c.1 + c.2.1 + c.2.2)
    adult_pct := pct_share c.2.2 (c.1 + c.2.1 + c.2.2)
    aer_grade := classify_aer_grade (calculate_aer c.1 c.2.1 c.2.2)
    aebi_grade := classify_aebi_grade (calculate_aebi c.1 c.2.1 c.2.2) }

/-- `ImbalanceMetrics.add_metrics_to_dataframe`: raise
`ValueError(f"Missing required columns: {missing_cols}")` when any required
count column is absent (the error payload carries the missing names),
otherwise return the annotated rows. -/
def add_metrics_to_dataframe (df : Frame) : Except (List String) (List MetricsRow) :=
  if missing_required_cols df.cols ≠ [] then
    Except.error (missing_required_cols df.cols)
  else
    Except.ok (df.rows.map annotate_counts)

/-- C9: when a required count column is missing, the calculator returns the
error naming exactly the missing required columns and produces no annotated
output; when all three are present it returns the annotated rows. -/
theorem add_metrics_schema_spec (df : Frame) :
    (missing_required_cols df.cols ≠ [] →
      add_metrics_to_dataframe df = Except.error (missing_required_cols df.cols) ∧
      ∀ out, add_metrics_to_dataframe df ≠ Except.ok out) ∧
    (missing_required_cols df.cols = [] →
      add_metrics_to_dataframe df = Except.ok (df.rows.map annotate_counts)) ∧
    (∀ c, c ∈ missing_required_cols df.cols ↔ c ∈ required_cols ∧ ¬ c ∈ df.cols) := by
  refine ⟨?_, ?_, ?_⟩
  · intro hne
    unfold add_metrics_to_dataframe
    rw [if_pos hne]
    exact ⟨rfl, fun out h => by cases h⟩
  · intro he
    unfold add_metrics_to_dataframe
    rw [if_neg (by simp [he])]
  · intro c
    simp [missing_required_cols, List.mem_filter]

/-- C9 witness: a frame missing `age_18_greater` errors with that name; a
frame with all three columns annotates its rows. -/
theorem add_metrics_schema_spec_witness :
    missing_required_cols ["age_0_5", "age_5_17"] ≠ [] ∧
    add_metrics_to_dataframe ⟨["age_0_5", "age_5_17"], [(1, 2, 3)]⟩ =
      Except.error (missing_required_cols ["age_0_5", "age_5_17"]) ∧
    missing_required_cols ["age_0_5", "age_5_17", "age_18_greater"] = [] ∧
    add_metrics_to_dataframe ⟨["age_0_5", "age_5_17", "age_18_greater"], [(1, 2, 3)]⟩ =
      Except.ok ([((1 : ℚ), (2 : ℚ), (3 : ℚ))].map annotate_counts) ∧
    missing_required_cols ["age_0_5", "age_5_17"] = ["age_18_greater"] :=
  ⟨by decide,
   ((add_metrics_schema_spec ⟨["age_0_5", "age_5_17"], [(1, 2, 3)]⟩).1 (by decide)).1,
   by decide,
   (add_metrics_schema_spec ⟨["age_0_5", "age_5_17", "age_18_greater"], [(1, 2, 3)]⟩).2.1
     (by decide),
   by decide⟩

/-! ### Duplicate aggregation (C4) -/

theorem dedup_replicate_succ {κ : Type} [DecidableEq κ] (k : κ) :
    ∀ n : Nat, (List.replicate (n + 1) k).dedup = [k]
  | 0 => by simp
  | n + 1 => by
    rw [List.replicate_succ, List.dedup_cons_of_mem (by simp [List.mem_replicate])]
    exact dedup_replicate_succ k n

/-- C4 (amended): in the duplicate step, rows sharing the full
(date, district, pincode) key merge into one row whose enrollment counts
are the sums and whose other fields are the first occurrence's, and the
derived `total_enrollments` of the merged row is the sum of its three
counts. -/
theorem remove_duplicates_aggregates (r : RawRow) (rs : List RawRow)
    (hk : ∀ s ∈ rs, dupKey s = dupKey r) :
    remove_duplicates (r :: rs) = [mergeDuplicates r rs] ∧
    (mergeDuplicates r rs).age_0_5 = r.age_0_5 + (rs.map fun s => s.age_0_5).sum ∧
    (mergeDuplicates r rs).age_5_17 = r.age_5_17 + (rs.map fun s => s.age_5_17).sum ∧
    (mergeDuplicates r rs).age_18_greater =
      r.age_18_greater + (rs.map fun s => s.age_18_greater).sum ∧
    (mergeDuplicates r rs).district = r.district ∧
    (mergeDuplicates r rs).pincode = r.pincode ∧
    (mergeDuplicates r rs).state = r.state ∧
    (mergeDuplicates r rs).pincode_valid = r.pincode_valid ∧
    ∀ c ∈ add_derived_columns (remove_duplicates (r :: rs)),
      c.total_enrollments = c.age_0_5 + c.age_5_17 + c.age_18_greater := by
  have hmap : (r :: rs).map dupKey = List.replicate (rs.length + 1) (dupKey r) := by
    rw [List.eq_replicate_iff]
    constructor
    · simp
    · intro b hb
      rw [List.mem_map] at hb
      obtain ⟨s, hs, rfl⟩ := hb
      rcases List.mem_cons.mp hs with rfl | hs
      · rfl
      · exact hk s hs
  have hfil : (r :: rs).filter (fun s => dupKey s = dupKey r) = r :: rs := by
    rw [List.filter_eq_self]
    intro s hs
    rcases List.mem_cons.mp hs with rfl | hs
    · simp
    · exact decide_eq_true (hk s hs)
  have hout : remove_duplicates (r :: rs) = [mergeDuplicates r rs] := by
    unfold remove_duplicates groupByKey
    rw [hmap, dedup_replicate_succ]
    simp only [List.filterMap_cons, List.filterMap_nil]
    rw [hfil]
  refine ⟨hout, rfl, rfl, rfl, rfl, rfl, rfl, rfl, ?_⟩
  intro c hc
  rw [hout] at hc
  simp only [add_derived_columns, List.map_cons, List.map_nil, List.mem_singleton] at hc
  subst hc
  rfl

/-- Two raw rows that agree on month (and year), district and pincode but
differ in the day of the parsed date. -/
def dupX1 : RawRow :=
  { year := 2024, month := 1, day := 1, district := "Hyderabad", pincode := "500001",
    pincode_valid := true, state := "Telangana", age_0_5 := 2, age_5_17 := 3,
    age_18_greater := 1 }

def dupX2 : RawRow :=
  { dupX1 with day := 2, age_0_5 := 1, age_5_17 := 0, age_18_greater := 4 }

/-- C4 counterexample: two rows sharing (month, district, pincode) — but
with different days — are NOT merged by the duplicate step, which keys on
the full parsed date. -/
theorem remove_duplicates_month_counterexample :
    dupX1.year = dupX2.year ∧ dupX1.month = dupX2.month ∧
    dupX1.district = dupX2.district ∧ dupX1.pincode = dupX2.pincode ∧
    (remove_duplicates [dupX1, dupX2]).length = 2 := by
  decide

/-- Two raw rows with the identical full duplicate key and counts
(2,3,1) and (1,0,4). -/
def dupW1 : RawRow :=
  { year := 2024, month := 1, day := 1, district := "Hyderabad", pincode := "500001",
    pincode_valid := true, state := "Telangana", age_0_5 := 2, age_5_17 := 3,
    age_18_greater := 1 }

def dupW2 : RawRow :=
  { dupW1 with age_0_5 := 1, age_5_17 := 0, age_18_greater := 4 }

/-- C4 witness: counts (2,3,1) and (1,0,4) on the same key aggregate to
(3,3,5) with derived `total_enrollments = 11`. -/
theorem remove_duplicates_aggregates_witness :
    (∀ s ∈ [dupW2], dupKey s = dupKey dupW1) ∧
    remove_duplicates [dupW1, dupW2] = [mergeDuplicates dupW1 [dupW2]] ∧
    (mergeDuplicates dupW1 [dupW2]).age_0_5 = 3 ∧
    (mergeDuplicates dupW1 [dupW2]).age_5_17 = 3 ∧
    (mergeDuplicates dupW1 [dupW2]).age_18_greater = 5 ∧
    (mergeDuplicates dupW1 [dupW2]).state = dupW1.state ∧
    ∀ c ∈ add_derived_columns (remove_duplicates [dupW1, dupW2]),
      c.total_enrollments = 11 := by
  have h := remove_duplicates_aggregates dupW1 [dupW2] (by decide)
  refine ⟨by decide, h.1, ?_, ?_, ?_, by decide, ?_⟩
  · norm_num [mergeDuplicates, dupW1, dupW2]
  · norm_num [mergeDuplicates, dupW1, dupW2]
  · norm_num [mergeDuplicates, dupW1, dupW2]
  · intro c hc
    rw [h.1] at hc
    simp only [add_derived_columns, List.map_cons, List.map_nil,
      List.mem_singleton] at hc
    subst hc
    norm_num [mergeDuplicates, dupW1, dupW2]

/-! ### The derived-total invariant (C10) -/

theorem sum_map_add3 {α : Type} (f1 f2 f3 : α → ℚ) (l : List α) :
    (l.map fun a => f1 a + f2 a + f3 a).sum =
      (l.map f1).sum + (l.map f2).sum + (l.map f3).sum := by
  induction l with
  | nil => simp
  | cons a t ih =>
    simp only [List.map_cons, List.sum_cons, ih]
    ring

theorem groupByKey_singleton {α β κ : Type} [DecidableEq κ] (key : α → κ)
    (merge : α → List α → β) (x : α) :
    groupByKey key merge [x] = [merge x []] := by
  unfold groupByKey
  simp

/-- C10: after the derivation step every produced table satisfies
`total_enrollments = age_0_5 + age_5_17 + age_18_greater` on every row:
the cleaning output establishes it, and the monthly, district and PIN-code
aggregations (which sum all four columns) preserve it. -/
theorem total_enrollments_invariant :
    (∀ (df : List RawRow), ∀ c ∈ add_derived_columns df,
      c.total_enrollments = c.age_0_5 + c.age_5_17 + c.age_18_greater) ∧
    (∀ (df : List CleanRow),
      (∀ r ∈ df, r.total_enrollments = r.age_0_5 + r.age_5_17 + r.age_18_greater) →
      ∀ m ∈ aggregate_monthly df,
        m.total_enrollments = m.age_0_5 + m.age_5_17 + m.age_18_greater) ∧
    (∀ (df : List MRow),
      (∀ r ∈ df, r.total_enrollments = r.age_0_5 + r.age_5_17 + r.age_18_greater) →
      ∀ a ∈ district_data df,
        a.total_enrollments = a.age_0_5 + a.age_5_17 + a.age_18_greater) ∧
    (∀ (df : List MRow),
      (∀ r ∈ df, r.total_enrollments = r.age_0_5 + r.age_5_17 + r.age_18_greater) →
      ∀ p ∈ pincode_data df,
        p.total_enrollments = p.age_0_5 + p.age_5_17 + p.age_18_greater) := by
  refine ⟨?_, ?_, ?_, ?_⟩
  · intro df c hc
    simp only [add_derived_columns, List.mem_map] at hc
    obtain ⟨r, -, rfl⟩ := hc
    rfl
  · intro df hinv m hm
    unfold aggregate_monthly at hm
    obtain ⟨k, r, g, hfil, rfl⟩ := mem_groupByKey.mp hm
    have hsub : ∀ s ∈ r :: g, s ∈ df := by
      intro s hs
      rw [← hfil] at hs
      exact (List.mem_filter.mp hs).1
    have hmap : (g.map fun s => s.total_enrollments) =
        g.map fun s => s.age_0_5 + s.age_5_17 + s.age_18_greater :=
      List.map_congr_left fun s hs =>
        hinv s (hsub s (List.mem_cons_of_mem r hs))
    show r.total_enrollments + (g.map fun s => s.total_enrollments).sum =
      (r.age_0_5 + (g.map fun s => s.age_0_5).sum) +
        (r.age_5_17 + (g.map fun s => s.age_5_17).sum) +
        (r.age_18_greater + (g.map fun s => s.age_18_greater).sum)
    rw [hinv r (hsub r (List.mem_cons_self r g)), hmap]
    simp only [sum_map_add3]
    ring
  · intro df hinv a ha
    unfold district_data at ha
    obtain ⟨k, r, g, hfil, rfl⟩ := mem_groupByKey.mp ha
    have hsub : ∀ s ∈ r :: g, s ∈ df := by
      intro s hs
      rw [← hfil] at hs
      exact (List.mem_filter.mp hs).1
    have hmap : (g.map fun s => s.total_enrollments) =
        g.map fun s => s.age_0_5 + s.age_5_17 + s.age_18_greater :=
      List.map_congr_left fun s hs =>
        hinv s (hsub s (List.mem_cons_of_mem r hs))
    show r.total_enrollments + (g.map fun s => s.total_enrollments).sum =
      (r.age_0_5 + (g.map fun s => s.age_0_5).sum) +
        (r.age_5_17 + (g.map fun s => s.age_5_17).sum) +
        (r.age_18_greater + (g.map fun s => s.age_18_greater).sum)
    rw [hinv r (hsub r (List.mem_cons_self r g)), hmap]
    simp only [sum_map_add3]
    ring
  · intro df hinv p hp
    unfold pincode_data at hp
    obtain ⟨k, r, g, hfil, rfl⟩ := mem_groupByKey.mp hp
    have hsub : ∀ s ∈ r :: g, s ∈ df := by
      intro s hs
      rw [← hfil] at hs
      exact (List.mem_filter.mp hs).1
    have hmap : (g.map fun s => s.total_enrollments) =
        g.map fun s => s.age_0_5 + s.age_5_17 + s.age_18_greater :=
      List.map_congr_left fun s hs =>
        hinv s (hsub s (List.mem_cons_of_mem r hs))
    show r.total_enrollments + (g.map fun s => s.total_enrollments).sum =
      (r.age_0_5 + (g.map fun s => s.age_0_5).sum) +
        (r.age_5_17 + (g.map fun s => s.age_5_17).sum) +
        (r.age_18_greater + (g.map fun s => s.age_18_greater).sum)
    rw [hinv r (hsub r (List.mem_cons_self r g)), hmap]
    simp only [sum_map_add3]
    ring

/-- A cleaned row for the C10 witness (counts 2, 3, 1; total 6). -/
def cw10 : CleanRow := { toRawRow := dupW1, total_enrollments := 6 }

/-- The derived row of `add_derived_columns [dupW1]`. -/
def dw10 : CleanRow :=
  { toRawRow := dupW1,
    total_enrollments := dupW1.age_0_5 + dupW1.age_5_17 + dupW1.age_18_greater }

/-- The monthly aggregate of `aggregate_monthly [cw10]`. -/
def mw10 : MonthlyRow :=
  { year := 2024, month := 1, district := "Hyderabad", pincode := "500001",
    age_0_5 := 2, age_5_17 := 3, age_18_greater := 1, total_enrollments := 6 }

/-- The district aggregate of `district_data [mrw10]`. -/
def mrw10 : MRow :=
  { district := "Hyderabad", pincode := "500001", age_0_5 := 2, age_5_17 := 3,
    age_18_greater := 1, total_enrollments := 6 }

def daw10 : DRow :=
  { district := "Hyderabad", age_0_5 := 2, age_5_17 := 3, age_18_greater := 1,
    total_enrollments := 6 }

def paw10 : PRow :=
  { district := "Hyderabad", pincode := "500001", age_0_5 := 2, age_5_17 := 3,
    age_18_greater := 1, total_enrollments := 6 }

/-- C10 witness: the invariant instantiated on concrete rows of each stage. -/
theorem total_enrollments_invariant_witness :
    dw10 ∈ add_derived_columns [dupW1] ∧
    dw10.total_enrollments = dw10.age_0_5 + dw10.age_5_17 + dw10.age_18_greater ∧
    mw10 ∈ aggregate_monthly [cw10] ∧
    mw10.total_enrollments = mw10.age_0_5 + mw10.age_5_17 + mw10.age_18_greater ∧
    daw10 ∈ district_data [mrw10] ∧
    daw10.total_enrollments = daw10.age_0_5 + daw10.age_5_17 + daw10.age_18_greater ∧
    paw10 ∈ pincode_data [mrw10] ∧
    paw10.total_enrollments = paw10.age_0_5 + paw10.age_5_17 + paw10.age_18_greater := by
  have hinvC : ∀ r ∈ [cw10],
      r.total_enrollments = r.age_0_5 + r.age_5_17 + r.age_18_greater := by
    intro r hr
    rw [List.mem_singleton] at hr
    subst hr
    norm_num [cw10, dupW1]
  have hinvM : ∀ r ∈ [mrw10],
      r.total_enrollments = r.age_0_5 + r.age_5_17 + r.age_18_greater := by
    intro r hr
    rw [List.mem_singleton] at hr
    subst hr
    norm_num [mrw10]
  have hd : dw10 ∈ add_derived_columns [dupW1] := by
    simp [add_derived_columns, dw10]
  have hmm : mw10 ∈ aggregate_monthly [cw10] := by
    unfold aggregate_monthly
    rw [groupByKey_singleton]
    rw [List.mem_singleton]
    norm_num [mw10, cw10, dupW1]
  have hda : daw10 ∈ district_data [mrw10] := by
    unfold district_data
    rw [groupByKey_singleton]
    rw [List.mem_singleton]
    norm_num [daw10, mergeDistrict, mrw10]
  have hpa : paw10 ∈ pincode_data [mrw10] := by
    unfold pincode_data
    rw [groupByKey_singleton]
    rw [List.mem_singleton]
    norm_num [paw10, mergePincode, mrw10]
  exact ⟨hd, total_enrollments_invariant.1 [dupW1] dw10 hd,
    hmm, total_enrollments_invariant.2.1 [cw10] hinvC mw10 hmm,
    hda, total_enrollments_invariant.2.2.1 [mrw10] hinvM daw10 hda,
    hpa, total_enrollments_invariant.2.2.2 [mrw10] hinvM paw10 hpa⟩

/-! ### District ranking (C6) -/

theorem assignDistrictRanks_length (n : Nat) :
    ∀ (i : Nat) (l : List DMRow), (assignDistrictRanks i n l).length = l.length
  | _, [] => rfl
  | i, a :: rest => by
    simp [assignDistrictRanks, assignDistrictRanks_length n (i + 1) rest]

theorem assignDistrictRanks_map_rank (n : Nat) :
    ∀ (i : Nat) (l : List DMRow),
      (assignDistrictRanks i n l).map (fun z => z.rank) = List.range' i l.length
  | _, [] => by simp [assignDistrictRanks]
  | i, a :: rest => by
    simp [assignDistrictRanks, assignDistrictRanks_map_rank n (i + 1) rest,
      List.range'_succ]

theorem mem_assignDistrictRanks {n i : Nat} {l : List DMRow} {z : RankedDRow}
    (hz : z ∈ assignDistrictRanks i n l) :
    z.toDMRow ∈ l ∧ z.priority = district_priority z.rank n ∧
      i ≤ z.rank ∧ z.rank < i + l.length := by
  induction l generalizing i with
  | nil => simp [assignDistrictRanks] at hz
  | cons a rest ih =>
    simp only [assignDistrictRanks, List.mem_cons] at hz
    rcases hz with rfl | hz
    · exact ⟨List.mem_cons_self a rest, rfl, le_refl i, by simp⟩
    · obtain ⟨h1, h2, h3, h4⟩ := ih hz
      refine ⟨List.mem_cons_of_mem a h1, h2, by omega, by simp; omega⟩

theorem pairwise_assignDistrictRanks {n : Nat} {l : List DMRow}
    (h : l.Pairwise fun a b => a.aer ≤ b.aer) (i : Nat) :
    (assignDistrictRanks i n l).Pairwise fun x y => x.aer ≤ y.aer := by
  induction l generalizing i with
  | nil => simp [assignDistrictRanks]
  | cons a rest ih =>
    rw [List.pairwise_cons] at h
    simp only [assignDistrictRanks]
    rw [List.pairwise_cons]
    refine ⟨?_, ih h.2 (i + 1)⟩
    intro z hz
    exact h.1 z.toDMRow (mem_assignDistrictRanks hz).1

/-- `mergeSort` with a `≤`-comparison on a rational key sorts. -/
theorem pairwise_mergeSort_metric {γ : Type} (m : γ → ℚ) (l : List γ) :
    (l.mergeSort fun a b => m a ≤ m b).Pairwise fun a b => m a ≤ m b := by
  refine List.Pairwise.imp ?_ (List.sorted_mergeSort ?_ ?_ l)
  · intro a b hab
    exact of_decide_eq_true hab
  · intro a b c hab hbc
    exact decide_eq_true (le_trans (of_decide_eq_true hab) (of_decide_eq_true hbc))
  · intro a b
    rcases le_total (m a) (m b) with hab | hab
    · simp [hab]
    · simp [hab]

theorem district_priority_iff (r n : Nat) :
    (district_priority r n = "HIGH" ↔ (r : ℚ) ≤ (n : ℚ) * (3/10)) ∧
    (district_priority r n = "MEDIUM" ↔
      (n : ℚ) * (3/10) < (r : ℚ) ∧ (r : ℚ) ≤ (n : ℚ) * (7/10)) ∧
    (district_priority r n = "LOW" ↔ (n : ℚ) * (7/10) < (r : ℚ)) := by
  have h37 : (n : ℚ) * (3/10) ≤ (n : ℚ) * (7/10) :=
    mul_le_mul_of_nonneg_left (by norm_num) (Nat.cast_nonneg n)
  unfold district_priority
  by_cases h3 : (r : ℚ) ≤ (n : ℚ) * (3/10)
  · rw [if_pos h3]
    refine ⟨⟨fun _ => h3, fun _ => rfl⟩, ?_, ?_⟩
    · constructor
      · intro hc
        exact absurd hc (by decide)
      · rintro ⟨hlt, -⟩
        exact absurd h3 (not_le_of_lt hlt)
    · constructor
      · intro hc
        exact absurd hc (by decide)
      · intro hlt
        exact absurd (le_trans h3 h37) (not_le_of_lt hlt)
  · by_cases h7 : (r : ℚ) ≤ (n : ℚ) * (7/10)
    · rw [if_neg h3, if_pos h7]
      refine ⟨?_, ⟨fun _ => ⟨lt_of_not_le h3, h7⟩, fun _ => rfl⟩, ?_⟩
      · constructor
        · intro hc
          exact absurd hc (by decide)
        · intro hle
          exact absurd hle h3
      · constructor
        · intro hc
          exact absurd hc (by decide)
        · intro hlt
          exact absurd h7 (not_le_of_lt hlt)
    · rw [if_neg h3, if_neg h7]
      refine ⟨?_, ?_, ⟨fun _ => lt_of_not_le h7, fun _ => rfl⟩⟩
      · constructor
        · intro hc
          exact absurd hc (by decide)
        · intro hle
          exact absurd hle h3
      · constructor
        · intro hc
          exact absurd hc (by decide)
        · rintro ⟨-, hle⟩
          exact absurd hle h7

/-- C6: on any non-empty input, `rank_districts` with the default metric
`aer` produces one row per district aggregate, with consecutive ranks 1..N
down an ascending `aer` ordering, and priority HIGH exactly on ranks
≤ N*0.3, MEDIUM exactly on ranks in (N*0.3, N*0.7], LOW exactly on ranks
above N*0.7. -/
theorem rank_districts_spec (df : List MRow) (hne : df ≠ []) :
    (district_rankings_default df).map (fun z => z.rank) =
      List.range' 1 (district_rankings_default df).length ∧
    (district_rankings_default df).length = (district_data df).length ∧
    district_rankings_default df ≠ [] ∧
    (district_rankings_default df).Pairwise (fun x y => x.aer ≤ y.aer) ∧
    ∀ z ∈ district_rankings_default df,
      (1 ≤ z.rank ∧ z.rank ≤ (district_rankings_default df).length) ∧
      (z.priority = "HIGH" ↔
        (z.rank : ℚ) ≤ ((district_rankings_default df).length : ℚ) * (3/10)) ∧
      (z.priority = "MEDIUM" ↔
        ((district_rankings_default df).length : ℚ) * (3/10) < (z.rank : ℚ) ∧
        (z.rank : ℚ) ≤ ((district_rankings_default df).length : ℚ) * (7/10)) ∧
      (z.priority = "LOW" ↔
        ((district_rankings_default df).length : ℚ) * (7/10) < (z.rank : ℚ)) := by
  have hslen :
      (((district_data df).map add_metrics_district).mergeSort
        (fun a b => (fun z : DMRow => z.aer) a ≤ (fun z : DMRow => z.aer) b)).length =
      (district_data df).length := by
    rw [List.length_mergeSort, List.length_map]
  have hlen : (district_rankings_default df).length = (district_data df).length := by
    unfold district_rankings_default rank_districts
    rw [assignDistrictRanks_length]
    exact hslen
  refine ⟨?_, hlen, ?_, ?_, ?_⟩
  · rw [hlen]
    unfold district_rankings_default rank_districts
    rw [assignDistrictRanks_map_rank]
    rw [hslen]
  · intro hcontra
    obtain ⟨r0, hr0⟩ : ∃ r0, r0 ∈ df := by
      rcases df with _ | ⟨r, t⟩
      · exact absurd rfl hne
      · exact ⟨r, List.mem_cons_self r t⟩
    obtain ⟨r, g, -, hmem⟩ :=
      @groupByKey_surj MRow DRow String _ (fun s => s.district) mergeDistrict df r0 hr0
    have hdd : district_data df = [] := by
      rw [← List.length_eq_zero, ← hlen, hcontra]
      rfl
    rw [← district_data] at hmem
    rw [hdd] at hmem
    cases hmem
  · unfold district_rankings_default rank_districts
    exact pairwise_assignDistrictRanks
      (pairwise_mergeSort_metric (fun z : DMRow => z.aer) _) 1
  · intro z hz
    have hz' : z ∈ assignDistrictRanks 1 (district_data df).length
        (((district_data df).map add_metrics_district).mergeSort
          (fun a b => (fun z : DMRow => z.aer) a ≤ (fun z : DMRow => z.aer) b)) := hz
    obtain ⟨-, hprio, hlo, hhi⟩ := mem_assignDistrictRanks hz'
    rw [hslen] at hhi
    have hiff := district_priority_iff z.rank (district_data df).length
    rw [hlen]
    exact ⟨⟨hlo, by omega⟩, hprio ▸ hiff.1, hprio ▸ hiff.2.1, hprio ▸ hiff.2.2⟩

/-- A single-district input row for the C6 witness. -/
def w6 : MRow :=
  { district := "Hyderabad", pincode := "500001", age_0_5 := 1, age_5_17 := 2,
    age_18_greater := 3, total_enrollments := 6 }

/-- C6 witness at the one-row table `[w6]`. -/
theorem rank_districts_spec_witness :
    ([w6] : List MRow) ≠ [] ∧
    ((district_rankings_default [w6]).map (fun z => z.rank) =
      List.range' 1 (district_rankings_default [w6]).length ∧
    (district_rankings_default [w6]).length = (district_data [w6]).length ∧
    district_rankings_default [w6] ≠ [] ∧
    (district_rankings_default [w6]).Pairwise (fun x y => x.aer ≤ y.aer) ∧
    ∀ z ∈ district_rankings_default [w6],
      (1 ≤ z.rank ∧ z.rank ≤ (district_rankings_default [w6]).length) ∧
      (z.priority = "HIGH" ↔
        (z.rank : ℚ) ≤ ((district_rankings_default [w6]).length : ℚ) * (3/10)) ∧
      (z.priority = "MEDIUM" ↔
        ((district_rankings_default [w6]).length : ℚ) * (3/10) < (z.rank : ℚ) ∧
        (z.rank : ℚ) ≤ ((district_rankings_default [w6]).length : ℚ) * (7/10)) ∧
      (z.priority = "LOW" ↔
        ((district_rankings_default [w6]).length : ℚ) * (7/10) < (z.rank : ℚ))) :=
  ⟨by simp, rank_districts_spec [w6] (by simp)⟩

/-! ### Priority zones (C7) -/

theorem tier_of_iff (x : ℚ) :
    (tier_of x = "TIER 1 - URGENT" ↔ x < 1/1000) ∧
    (tier_of x = "TIER 2 - MODERATE" ↔ 1/1000 ≤ x ∧ x < 5/1000) ∧
    (tier_of x = "TIER 3 - LOW PRIORITY" ↔ 5/1000 ≤ x) := by
  unfold tier_of
  by_cases h1 : x < 1/1000
  · rw [if_pos h1]
    refine ⟨⟨fun _ => h1, fun _ => rfl⟩, ?_, ?_⟩
    · constructor
      · intro hc
        exact absurd hc (by decide)
      · rintro ⟨hge, -⟩
        exact absurd h1 (not_lt_of_le hge)
    · constructor
      · intro hc
        exact absurd hc (by decide)
      · intro hge
        exact absurd h1 (not_lt_of_le (le_trans (by norm_num) hge))
  · by_cases h5 : x < 5/1000
    · rw [if_neg h1, if_pos h5]
      refine ⟨?_, ⟨fun _ => ⟨le_of_not_lt h1, h5⟩, fun _ => rfl⟩, ?_⟩
      · constructor
        · intro hc
          exact absurd hc (by decide)
        · intro hlt
          exact absurd hlt h1
      · constructor
        · intro hc
          exact absurd hc (by decide)
        · intro hge
          exact absurd h5 (not_lt_of_le hge)
    · rw [if_neg h1, if_neg h5]
      refine ⟨?_, ?_, ⟨fun _ => le_of_not_lt h5, fun _ => rfl⟩⟩
      · constructor
        · intro hc
          exact absurd hc (by decide)
        · intro hlt
          exact absurd hlt h1
      · constructor
        · intro hc
          exact absurd hc (by decide)
        · rintro ⟨-, hlt⟩
          exact absurd hlt h5

/-- C7: `identify_priority_zones` returns exactly the PIN-code aggregates
over the enrollment floor and under the AER ceiling (as a permutation of
that filtered list with the tier column attached), sorted ascending by
`aer`, each tiered TIER 1 iff `aer < 0.001`, TIER 2 iff
`0.001 ≤ aer < 0.005`, TIER 3 otherwise. -/
theorem identify_priority_zones_spec (df : List MRow) (thr minE : ℚ) :
    (identify_priority_zones df thr minE).Perm
      (((annotated_pincode_data df minE).filter fun a => a.aer < thr).map
        fun a => { toPMRow := a, tier := tier_of a.aer }) ∧
    (identify_priority_zones df thr minE).Pairwise (fun x y => x.aer ≤ y.aer) ∧
    ∀ z ∈ identify_priority_zones df thr minE,
      minE ≤ z.total_enrollments ∧ z.aer < thr ∧
      (z.tier = "TIER 1 - URGENT" ↔ z.aer < 1/1000) ∧
      (z.tier = "TIER 2 - MODERATE" ↔ 1/1000 ≤ z.aer ∧ z.aer < 5/1000) ∧
      (z.tier = "TIER 3 - LOW PRIORITY" ↔ 5/1000 ≤ z.aer) := by
  refine ⟨?_, ?_, ?_⟩
  · unfold identify_priority_zones
    exact List.Perm.map _ (List.mergeSort_perm _ _)
  · unfold identify_priority_zones
    refine List.Pairwise.map _ ?_ (pairwise_mergeSort_metric (fun a : PMRow => a.aer) _)
    intro a b hab
    exact hab
  · intro z hz
    unfold identify_priority_zones at hz
    rw [List.mem_map] at hz
    obtain ⟨a, ha, rfl⟩ := hz
    rw [List.mem_mergeSort, List.mem_filter] at ha
    obtain ⟨hamem, hathr⟩ := ha
    have hathr' : a.aer < thr := of_decide_eq_true hathr
    unfold annotated_pincode_data at hamem
    rw [List.mem_map] at hamem
    obtain ⟨p, hpfil, rfl⟩ := hamem
    rw [List.mem_filter] at hpfil
    have hminE : minE ≤ p.total_enrollments := of_decide_eq_true hpfil.2
    exact ⟨hminE, hathr', tier_of_iff (add_metrics_pincode p).aer⟩

/-- The C7 scenario row: counts (100, 20, 0), total 120. -/
def w7 : MRow :=
  { district := "Hyderabad", pincode := "500001", age_0_5 := 100, age_5_17 := 20,
    age_18_greater := 0, total_enrollments := 120 }

/-- The single zone row produced from `[w7]`. -/
def z7 : ZoneRow :=
  { toPMRow := add_metrics_pincode (mergePincode w7 []),
    tier := tier_of (add_metrics_pincode (mergePincode w7 [])).aer }

/-- C7 witness: the (100, 20, 0) PIN code is in the priority zones with
AER 0, total 120, tier TIER 1 - URGENT, and the spec conclusions hold on
it. -/
theorem identify_priority_zones_spec_witness :
    z7 ∈ identify_priority_zones [w7] (1/100) 50 ∧
    (50 ≤ z7.total_enrollments ∧ z7.aer < 1/100 ∧
      (z7.tier = "TIER 1 - URGENT" ↔ z7.aer < 1/1000) ∧
      (z7.tier = "TIER 2 - MODERATE" ↔ 1/1000 ≤ z7.aer ∧ z7.aer < 5/1000) ∧
      (z7.tier = "TIER 3 - LOW PRIORITY" ↔ 5/1000 ≤ z7.aer)) ∧
    z7.total_enrollments = 120 ∧ z7.aer = 0 ∧ z7.tier = "TIER 1 - URGENT" := by
  have hpin : pincode_data [w7] = [mergePincode w7 []] := by
    unfold pincode_data
    exact groupByKey_singleton _ _ w7
  have htot : (mergePincode w7 []).total_enrollments = 120 := by
    norm_num [mergePincode, w7]
  have haer : (add_metrics_pincode (mergePincode w7 [])).aer = 0 := by
    show calculate_aer (mergePincode w7 []).age_0_5 (mergePincode w7 []).age_5_17
      (mergePincode w7 []).age_18_greater = 0
    norm_num [calculate_aer, mergePincode, w7]
  have hcond : (50 : ℚ) ≤ (mergePincode w7 []).total_enrollments := by
    rw [htot]
    norm_num
  have hann : annotated_pincode_data [w7] 50 = [add_metrics_pincode (mergePincode w7 [])] := by
    unfold annotated_pincode_data
    rw [hpin]
    simp [List.filter_cons, hcond]
  have hcond2 : (add_metrics_pincode (mergePincode w7 [])).aer < 1/100 := by
    rw [haer]
    norm_num
  have hfil : ((annotated_pincode_data [w7] 50).filter fun a => a.aer < 1/100) =
      [add_metrics_pincode (mergePincode w7 [])] := by
    rw [hann]
    simp [List.filter_cons, hcond2]
    linarith [hcond2]
  have hzone : identify_priority_zones [w7] (1/100) 50 = [z7] := by
    unfold identify_priority_zones
    rw [hfil, List.mergeSort_singleton]
    rfl
  have hmem : z7 ∈ identify_priority_zones [w7] (1/100) 50 := by
    rw [hzone]
    exact List.mem_singleton_self z7
  refine ⟨hmem, (identify_priority_zones_spec [w7] (1/100) 50).2.2 z7 hmem, ?_, ?_, ?_⟩
  · show (add_metrics_pincode (mergePincode w7 [])).total_enrollments = 120
    exact htot
  · exact haer
  · show tier_of (add_metrics_pincode (mergePincode w7 [])).aer = _
    rw [haer]
    norm_num [tier_of]

/-! ### Per-stage minimum-enrollment filtering (C8) -/

theorem mem_assignPincodeRanks {i : Nat} {l : List PMRow} {z : RankedPRow}
    (hz : z ∈ assignPincodeRanks i l) :
    z.toPMRow ∈ l ∧ z.risk_level = risk_level_of z.aer ∧
      z.recommendation = generate_recommendation z.toPMRow ∧
      i ≤ z.rank ∧ z.rank < i + l.length := by
  induction l generalizing i with
  | nil => simp [assignPincodeRanks] at hz
  | cons a rest ih =>
    simp only [assignPincodeRanks, List.mem_cons] at hz
    rcases hz with rfl | hz
    · exact ⟨List.mem_cons_self a rest, rfl, rfl, le_refl i, by simp⟩
    · obtain ⟨h1, h2, h3, h4, h5⟩ := ih hz
      refine ⟨List.mem_cons_of_mem a h1, h2, h3, by omega, by simp; omega⟩

/-- The summed `total_enrollments` of the input rows carrying a given
(district, pincode) key. -/
def pin_rows_total (df : List MRow) (d p : String) : ℚ :=
  ((df.filter fun r => (r.district, r.pincode) = (d, p)).map
    fun r => r.total_enrollments).sum

/-- C8: a (district, pincode) whose summed `total_enrollments` is below the
floor is absent from `rank_pincodes` output, while `rank_districts`'
district aggregation still sums every row of the district — including that
PIN code's rows (the floor is applied per stage, not globally). -/
theorem per_stage_floor_spec (df : List MRow) (metric : PMRow → ℚ) (minE : ℚ)
    (d p : String) (hlow : pin_rows_total df d p < minE) :
    (∀ z ∈ rank_pincodes df metric minE none,
      ¬ (z.district = d ∧ z.pincode = p)) ∧
    (∀ a ∈ district_data df, a.district = d →
      a.total_enrollments = pin_rows_total df d p +
        ((df.filter fun s => s.district = d ∧ ¬ (s.district, s.pincode) = (d, p)).map
          fun s => s.total_enrollments).sum) ∧
    ((∃ r ∈ df, r.district = d) → ∃ a ∈ district_data df, a.district = d) := by
  refine ⟨?_, ?_, ?_⟩
  · rintro z hz ⟨hzd, hzp⟩
    simp only [rank_pincodes, apply_top_n] at hz
    obtain ⟨hmem, -, -, -, -⟩ := mem_assignPincodeRanks hz
    rw [List.mem_mergeSort] at hmem
    unfold annotated_pincode_data at hmem
    rw [List.mem_map] at hmem
    obtain ⟨pr, hprfil, hzeq⟩ := hmem
    rw [List.mem_filter] at hprfil
    have hminE : minE ≤ pr.total_enrollments := of_decide_eq_true hprfil.2
    have hpd := hprfil.1
    unfold pincode_data at hpd
    obtain ⟨k, r, g, hfilr, rfl⟩ := mem_groupByKey.mp hpd
    have hrk : (r.district, r.pincode) = k := by
      have hr : r ∈ df.filter (fun s => (s.district, s.pincode) = k) := by
        rw [hfilr]
        exact List.mem_cons_self r g
      exact of_decide_eq_true (List.mem_filter.mp hr).2
    have hd2 : r.district = d := by
      have h1 : (add_metrics_pincode (mergePincode r g)).district = d := by
        rw [hzeq]
        exact hzd
      exact h1
    have hp2 : r.pincode = p := by
      have h1 : (add_metrics_pincode (mergePincode r g)).pincode = p := by
        rw [hzeq]
        exact hzp
      exact h1
    have hkdp : k = (d, p) := by
      rw [← hrk, hd2, hp2]
    have htotal : (mergePincode r g).total_enrollments =
        ((df.filter fun s => (s.district, s.pincode) = k).map
          fun s => s.total_enrollments).sum := by
      rw [hfilr]
      simp [mergePincode]
    rw [hkdp] at htotal
    have heq : pin_rows_total df d p = (mergePincode r g).total_enrollments := by
      unfold pin_rows_total
      rw [htotal]
    have : minE ≤ (mergePincode r g).total_enrollments := hminE
    linarith
  · intro a ha hdist
    unfold district_data at ha
    obtain ⟨k, r, g, hfilr, rfl⟩ := mem_groupByKey.mp ha
    have hrk : r.district = k := by
      have hr : r ∈ df.filter (fun s => s.district = k) := by
        rw [hfilr]
        exact List.mem_cons_self r g
      exact of_decide_eq_true (List.mem_filter.mp hr).2
    have hkd : k = d := by
      rw [← hrk]
      exact hdist
    subst hkd
    have htotal : (mergeDistrict r g).total_enrollments =
        ((df.filter fun s => s.district = k).map fun s => s.total_enrollments).sum := by
      rw [hfilr]
      simp [mergeDistrict]
    have hsplit : ((df.filter fun s => s.district = k).map
          fun s => s.total_enrollments).sum =
        ((df.filter fun s => s.district = k ∧ (s.district, s.pincode) = (k, p)).map
          fun s => s.total_enrollments).sum +
        ((df.filter fun s => s.district = k ∧ ¬ (s.district, s.pincode) = (k, p)).map
          fun s => s.total_enrollments).sum :=
      sum_map_filter_split _ _ _ df
    have hfeq : (df.filter fun s => s.district = k ∧ (s.district, s.pincode) = (k, p)) =
        df.filter fun s => (s.district, s.pincode) = (k, p) := by
      apply List.filter_congr
      intro s _
      rw [decide_eq_decide]
      constructor
      · rintro ⟨-, h2⟩
        exact h2
      · intro h2
        exact ⟨congrArg Prod.fst h2, h2⟩
    rw [htotal, hsplit, hfeq]
    rfl
  · rintro ⟨r0, hr0, hd0⟩
    obtain ⟨r, g, hfil0, hmem⟩ :=
      @groupByKey_surj MRow DRow String _ (fun s => s.district) mergeDistrict df r0 hr0
    refine ⟨mergeDistrict r g, hmem, ?_⟩
    have hr : r ∈ df.filter (fun s => s.district = r0.district) := by
      rw [hfil0]
      exact List.mem_cons_self r g
    have hreq : r.district = r0.district := of_decide_eq_true (List.mem_filter.mp hr).2
    show r.district = d
    rw [hreq, hd0]

/-- The C8 scenario row: a PIN code with `total_enrollments = 5`. -/
def w8 : MRow :=
  { district := "Hyderabad", pincode := "111111", age_0_5 := 2, age_5_17 := 2,
    age_18_greater := 1, total_enrollments := 5 }

/-- C8 witness: the total-5 PIN code is excluded from the PIN rankings
(which are empty) yet its counts feed the district aggregate. -/
theorem per_stage_floor_spec_witness :
    pin_rows_total [w8] "Hyderabad" "111111" < 10 ∧
    (∀ z ∈ rank_pincodes [w8] (fun a => a.aer) 10 none,
      ¬ (z.district = "Hyderabad" ∧ z.pincode = "111111")) ∧
    rank_pincodes [w8] (fun a => a.aer) 10 none = [] ∧
    (∃ a ∈ district_data [w8], a.district = "Hyderabad") ∧
    district_data [w8] = [mergeDistrict w8 []] ∧
    (mergeDistrict w8 []).total_enrollments = 5 := by
  have hlow : pin_rows_total [w8] "Hyderabad" "111111" < 10 := by
    norm_num [pin_rows_total, List.filter_cons, w8]
  have h := per_stage_floor_spec [w8] (fun a => a.aer) 10 "Hyderabad" "111111" hlow
  have hdd : district_data [w8] = [mergeDistrict w8 []] := by
    unfold district_data
    exact groupByKey_singleton _ _ w8
  have hempty : rank_pincodes [w8] (fun a => a.aer) 10 none = [] := by
    have hpd : pincode_data [w8] = [mergePincode w8 []] := by
      unfold pincode_data
      exact groupByKey_singleton _ _ w8
    have hnot : ¬ ((10 : ℚ) ≤ (mergePincode w8 []).total_enrollments) := by
      norm_num [mergePincode, w8]
    have hann : annotated_pincode_data [w8] 10 = [] := by
      unfold annotated_pincode_data
      rw [hpd]
      simp [List.filter_cons, hnot]
    simp only [rank_pincodes, apply_top_n]
    rw [hann, List.mergeSort_nil]
    rfl
  exact ⟨hlow, h.1, hempty, h.2.2 ⟨w8, List.mem_singleton_self w8, rfl⟩,
    hdd, by norm_num [mergeDistrict, w8]⟩

end UIDAI
